import Mathlib

set_option maxRecDepth 100000

/-!
Verification of the SYL-2381 Modbus RTU temperature-controller driver.

The development shallowly embeds the driver's register access and framing
layer: the numeric codec splitting a 32-bit IEEE-754 float across two
big-endian 16-bit holding-register words, the enumerated parameter
catalog, the status flag decoder, and the request/response protocol
sequence run over a byte-oriented transport.

Floats are represented by their 32-bit IEEE-754 bit pattern (a `Nat`
below `2^32`).  The driver never performs floating-point arithmetic:
it only compares values against literal bounds and casts them with
truncating/saturating integer casts, and every finite binary32 value
times `2^149` is an integer, so those operations have an exact
integer semantics, which is what we define here.
-/

namespace Syl2381

/-! ## Numeric codec (`values_to_f32` / `f32_to_values`)

Pure byte-shuffling functions from the source: an f32 bit pattern is
reinterpreted as four big-endian bytes grouped into two big-endian
16-bit words, and back. -/

/-- `values_to_f32(d0, d1)`: reinterpret the big-endian bytes of the two
16-bit words `d0, d1` as a binary32 bit pattern (word `d0` supplies the
high half). -/
def values_to_f32 (d0 d1 : Nat) : Nat :=
  let b0 := d0 / 256 % 256
  let b1 := d0 % 256
  let b2 := d1 / 256 % 256
  let b3 := d1 % 256
  ((b0 * 256 + b1) * 256 + b2) * 256 + b3

/-- `f32_to_values(val)`: split a binary32 bit pattern into its two
big-endian 16-bit register words. -/
def f32_to_values (v : Nat) : Nat × Nat :=
  let b0 := v / 16777216 % 256
  let b1 := v / 65536 % 256
  let b2 := v / 256 % 256
  let b3 := v % 256
  (b0 * 256 + b1, b2 * 256 + b3)

/-! ## Exact semantics of binary32 bit patterns -/

/-- Sign bit of a binary32 pattern. -/
def f32sign (v : Nat) : Nat := v / 2 ^ 31 % 2

/-- Biased exponent field of a binary32 pattern. -/
def f32exp (v : Nat) : Nat := v / 2 ^ 23 % 256

/-- Fraction (mantissa) field of a binary32 pattern. -/
def f32frac (v : Nat) : Nat := v % 2 ^ 23

/-- The pattern denotes a NaN. -/
def f32IsNan (v : Nat) : Prop := f32exp v = 255 ∧ f32frac v ≠ 0

instance (v : Nat) : Decidable (f32IsNan v) := by unfold f32IsNan; infer_instance

/-- The pattern denotes `+∞` or `-∞`. -/
def f32IsInf (v : Nat) : Prop := f32exp v = 255 ∧ f32frac v = 0

instance (v : Nat) : Decidable (f32IsInf v) := by unfold f32IsInf; infer_instance

/-- The pattern denotes a finite value. -/
def f32IsFinite (v : Nat) : Prop := f32exp v ≠ 255

instance (v : Nat) : Decidable (f32IsFinite v) := by unfold f32IsFinite; infer_instance

/-- Magnitude of a finite binary32 pattern, scaled by `2^149` so that it
is a natural number (the least representable positive value is
`2^-149`). -/
def f32mag (v : Nat) : Nat :=
  if f32exp v = 0 then f32frac v
  else (2 ^ 23 + f32frac v) * 2 ^ (f32exp v - 1)

/-- Exact value of a finite binary32 pattern, scaled by `2^149`. -/
def f32scaled (v : Nat) : Int :=
  if f32sign v = 1 then -(f32mag v : Int) else (f32mag v : Int)

/-- IEEE-754 `a <= b` on binary32 bit patterns: false whenever either
operand is NaN, `-∞` below everything, `+∞` above everything, finite
values compared exactly (note `-0.0 = +0.0` since both scale to `0`). -/
def f32le (a b : Nat) : Bool :=
  !f32IsNan a && !f32IsNan b &&
    (if f32IsInf a then
      (if f32sign a = 1 then true else f32IsInf b && f32sign b = 0)
    else if f32IsInf b then f32sign b = 0
    else f32scaled a ≤ f32scaled b)

/-- IEEE-754 `a >= b` on binary32 bit patterns (false on NaN). -/
def f32ge (a b : Nat) : Bool := f32le b a

/-- Truncation toward zero of the magnitude of a finite binary32
pattern (`Nat` division floors, which is truncation for a
nonnegative magnitude). -/
def f32truncNat (v : Nat) : Nat :=
  if f32exp v = 0 then 0
  else if 150 ≤ f32exp v then (2 ^ 23 + f32frac v) * 2 ^ (f32exp v - 150)
  else (2 ^ 23 + f32frac v) / 2 ^ (150 - f32exp v)

/-- Rust's `as u8` saturating/truncating cast on a binary32 pattern:
NaN casts to 0, any negative value truncates to at most 0 and so
saturates to 0, `+∞` saturates to 255, and a finite nonnegative value
truncates toward zero and clamps to 255. -/
def f32asU8 (v : Nat) : Nat :=
  if f32IsNan v then 0
  else if f32sign v = 1 then 0
  else if f32IsInf v then 255
  else min 255 (f32truncNat v)

/-- Rust's `as u16` saturating/truncating cast on a binary32 pattern. -/
def f32asU16 (v : Nat) : Nat :=
  if f32IsNan v then 0
  else if f32sign v = 1 then 0
  else if f32IsInf v then 65535
  else min 65535 (f32truncNat v)

/-- Base-2 logarithm with explicit fuel (structural recursion so the
kernel can evaluate it); `log2fuel f n = ⌊log₂ n⌋` for `n < 2^f`. -/
def log2fuel : Nat → Nat → Nat
  | 0, _ => 0
  | f + 1, n => if 2 ≤ n then log2fuel f (n / 2) + 1 else 0

/-- Binary32 bit pattern of a natural number below `2^24` (all such
integers are exactly representable, so no rounding occurs). -/
def natToF32 (n : Nat) : Nat :=
  if n = 0 then 0
  else
    let k := log2fuel 32 n
    (k + 127) * 2 ^ 23 + (n * 2 ^ 23 / 2 ^ k - 2 ^ 23)

/-- Binary32 bit pattern of an integer with `|i| < 2^24` (covers Rust's
exact `i16 as f32` / `u16 as f32` conversions). -/
def intToF32 (i : Int) : Nat :=
  if i < 0 then 2 ^ 31 + natToF32 i.natAbs else natToF32 i.toNat

/-! ## Enumerated parameter catalog

Each enumerated parameter decodes from the wire float with Rust's
`value as u8` cast and then matches on the resulting ordinal
(`TryFrom<f32>`), and encodes as the variant's ordinal float
(`From<T> for f32`). -/

inductive Filter where
  | Disabled
  | Weak
  | Strong
deriving DecidableEq

/-- `TryFrom<f32> for Filter`. -/
def Filter.try_from (value : Nat) : Except Unit Filter :=
  match f32asU8 value with
  | 0 => .ok .Disabled
  | 1 => .ok .Weak
  | 2 => .ok .Strong
  | _ => .error ()

/-- `From<Filter> for f32`. -/
def Filter.to_f32 : Filter → Nat
  | .Disabled => natToF32 0
  | .Weak => natToF32 1
  | .Strong => natToF32 2

inductive ControlDirection where
  | Heating
  | Cooling
deriving DecidableEq

/-- `TryFrom<f32> for ControlDirection`. -/
def ControlDirection.try_from (value : Nat) : Except Unit ControlDirection :=
  match f32asU8 value with
  | 0 => .ok .Heating
  | 1 => .ok .Cooling
  | _ => .error ()

/-- `From<ControlDirection> for f32`. -/
def ControlDirection.to_f32 : ControlDirection → Nat
  | .Heating => natToF32 0
  | .Cooling => natToF32 1

inductive DisplayUnit where
  | Celsius
  | Fahrenheit
deriving DecidableEq

/-- `TryFrom<f32> for DisplayUnit`. -/
def DisplayUnit.try_from (value : Nat) : Except Unit DisplayUnit :=
  match f32asU8 value with
  | 0 => .ok .Celsius
  | 1 => .ok .Fahrenheit
  | _ => .error ()

/-- `From<DisplayUnit> for f32`. -/
def DisplayUnit.to_f32 : DisplayUnit → Nat
  | .Celsius => natToF32 0
  | .Fahrenheit => natToF32 1

inductive BaudRate where
  | Baud1200
  | Baud2400
  | Baud4800
  | Baud9600
deriving DecidableEq

/-- `TryFrom<f32> for BaudRate`. -/
def BaudRate.try_from (value : Nat) : Except Unit BaudRate :=
  match f32asU8 value with
  | 0 => .ok .Baud1200
  | 1 => .ok .Baud2400
  | 2 => .ok .Baud4800
  | 3 => .ok .Baud9600
  | _ => .error ()

/-- `From<BaudRate> for f32`. -/
def BaudRate.to_f32 : BaudRate → Nat
  | .Baud1200 => natToF32 0
  | .Baud2400 => natToF32 1
  | .Baud4800 => natToF32 2
  | .Baud9600 => natToF32 3

inductive InputType where
  | T
  | R
  | J
  | Wre3_25
  | B
  | S
  | K
  | E
  | P100
  | P10_0
  | CU50
deriving DecidableEq

/-- `TryFrom<f32> for InputType`. -/
def InputType.try_from (value : Nat) : Except Unit InputType :=
  match f32asU8 value with
  | 0 => .ok .T
  | 1 => .ok .R
  | 2 => .ok .J
  | 3 => .ok .Wre3_25
  | 4 => .ok .B
  | 5 => .ok .S
  | 6 => .ok .K
  | 7 => .ok .E
  | 8 => .ok .P100
  | 9 => .ok .P10_0
  | 10 => .ok .CU50
  | _ => .error ()

/-- `From<InputType> for f32`. -/
def InputType.to_f32 : InputType → Nat
  | .T => natToF32 0
  | .R => natToF32 1
  | .J => natToF32 2
  | .Wre3_25 => natToF32 3
  | .B => natToF32 4
  | .S => natToF32 5
  | .K => natToF32 6
  | .E => natToF32 7
  | .P100 => natToF32 8
  | .P10_0 => natToF32 9
  | .CU50 => natToF32 10

inductive OutputType where
  | SSR
  | MA_0_20
  | MA_4_20
deriving DecidableEq

/-- `TryFrom<f32> for OutputType`. -/
def OutputType.try_from (value : Nat) : Except Unit OutputType :=
  match f32asU8 value with
  | 0 => .ok .SSR
  | 1 => .ok .MA_0_20
  | 2 => .ok .MA_4_20
  | _ => .error ()

/-- `From<OutputType> for f32`. -/
def OutputType.to_f32 : OutputType → Nat
  | .SSR => natToF32 0
  | .MA_0_20 => natToF32 1
  | .MA_4_20 => natToF32 2

inductive OutputMode where
  | J1RelayAsAbsoluteAlarmOutputSsrPortAsPidControlOutput
  | J1RelayAsDerivationAlarmOutputSsrPortAsPidControlOutput
  | J1RelayAsPidControlOutputSsrPortDisabled
  | J1RelayAsOnOffControlOutputSsrPortDisabled
  | J1RelayAsAbsoluteAlarmOutputSsrPortDisabled
deriving DecidableEq

/-- `TryFrom<f32> for OutputMode`. -/
def OutputMode.try_from (value : Nat) : Except Unit OutputMode :=
  match f32asU8 value with
  | 0 => .ok .J1RelayAsAbsoluteAlarmOutputSsrPortAsPidControlOutput
  | 1 => .ok .J1RelayAsDerivationAlarmOutputSsrPortAsPidControlOutput
  | 2 => .ok .J1RelayAsPidControlOutputSsrPortDisabled
  | 3 => .ok .J1RelayAsOnOffControlOutputSsrPortDisabled
  | 4 => .ok .J1RelayAsAbsoluteAlarmOutputSsrPortDisabled
  | _ => .error ()

/-- `From<OutputMode> for f32`. -/
def OutputMode.to_f32 : OutputMode → Nat
  | .J1RelayAsAbsoluteAlarmOutputSsrPortAsPidControlOutput => natToF32 0
  | .J1RelayAsDerivationAlarmOutputSsrPortAsPidControlOutput => natToF32 1
  | .J1RelayAsPidControlOutputSsrPortDisabled => natToF32 2
  | .J1RelayAsOnOffControlOutputSsrPortDisabled => natToF32 3
  | .J1RelayAsAbsoluteAlarmOutputSsrPortDisabled => natToF32 4

/-! ## Status flags

`Status(u8)` with one accessor per documented bit. -/

namespace Status

/-- `Status::alarm1`: `1 & (self.0 >> 5) == 1`. -/
def alarm1 (b : Nat) : Bool := 1 &&& (b >>> 5) == 1

/-- `Status::anomaly`: `1 & (self.0 >> 4) == 1`. -/
def anomaly (b : Nat) : Bool := 1 &&& (b >>> 4) == 1

/-- `Status::setting_mode`: `1 & (self.0 >> 3) == 1`. -/
def setting_mode (b : Nat) : Bool := 1 &&& (b >>> 3) == 1

/-- `Status::cooling_mode`: `1 & (self.0 >> 2) == 1`. -/
def cooling_mode (b : Nat) : Bool := 1 &&& (b >>> 2) == 1

/-- `Status::manual_mode`: `1 & (self.0 >> 1) == 1`. -/
def manual_mode (b : Nat) : Bool := 1 &&& (b >>> 1) == 1

/-- `Status::autotune_mode`: `1 & self.0 == 1`. -/
def autotune_mode (b : Nat) : Bool := 1 &&& b == 1

end Status

/-! ## Register map (`mod regs`) -/

namespace regs

def PV : Nat := 0x0164
def OUT : Nat := 0x0166
def AL1_STA : Nat := 0x0005
def CV : Nat := 0x016C
def AT : Nat := 0x0000
def SV : Nat := 0x0000
def AH1 : Nat := 0x0002
def AL1 : Nat := 0x0004
def P : Nat := 0x1000
def I : Nat := 0x1002
def D : Nat := 0x1004
def BB : Nat := 0x1006
def SOUF : Nat := 0x1008
def OT : Nat := 0x100A
def FILT : Nat := 0x100C
def INTY : Nat := 0x2000
def OUTY : Nat := 0x2002
def COTY : Nat := 0x2004
def HY : Nat := 0x2006
def PSB : Nat := 0x2008
def RD : Nat := 0x200A
def CORF : Nat := 0x200C
def ID : Nat := 0x200E
def BAUD : Nat := 0x2010

end regs

/-! ## Transport state and errors

The embedded-hal serial port is modelled as a pair of byte queues:
`rx` holds the bytes the device will send (consumed by reads) and `tx`
accumulates every byte the driver writes.  Each driver operation is a
state-passing function returning its result together with the final
transport state, so "no transport activity" is literally "the state is
unchanged". -/

structure Uart where
  rx : List Nat
  tx : List Nat
deriving DecidableEq

/-- `rmodbus::ErrorKind` (the variants this driver can surface). -/
inductive MbErr where
  | frameBroken
  | frameCrc
  | slaveError (code : Nat)
  | oob
deriving DecidableEq

/-- The driver's `Error<UartError>` type.  `unexpectedValue` carries the
f32 bit pattern of the offending value; `crash` marks executions on
which the Rust code would panic (out-of-bounds index / failed assert),
which no claim exercises. -/
inductive DriverError where
  | serialError
  | unexpectedValue (v : Nat)
  | modbusError (e : MbErr)
  | crash
deriving DecidableEq

instance {ε α : Type} [DecidableEq ε] [DecidableEq α] : DecidableEq (Except ε α) :=
  fun x y =>
    match x, y with
    | .ok a, .ok b => if h : a = b then .isTrue (by rw [h]) else .isFalse (by simp [h])
    | .error a, .error b => if h : a = b then .isTrue (by rw [h]) else .isFalse (by simp [h])
    | .ok _, .error _ => .isFalse (by simp)
    | .error _, .ok _ => .isFalse (by simp)

/-! ## Modbus RTU codec

Modelled from the spec: the external `rmodbus` collaborator (not part
of this repository) — RTU frame builders for read-holding-registers,
write-multiple-holding-registers and read-coils, the frame-length
inference from a 3-byte prefix (payload length in the third byte,
total = prefix + payload + 2-byte check), and the response validator
checking the trailing CRC and the unit/function-code echo. -/

/-- One step of the Modbus CRC-16 shift loop (polynomial `0xA001`). -/
def crcRound (c : Nat) : Nat := if c % 2 = 1 then (c / 2) ^^^ 0xA001 else c / 2

/-- Iterate the CRC shift loop (structurally, so the kernel evaluates it). -/
def crcShifts : Nat → Nat → Nat
  | 0, c => c
  | k + 1, c => crcShifts k (crcRound c)

/-- Fold one byte into a Modbus CRC-16 accumulator. -/
def crc16byte (c b : Nat) : Nat := crcShifts 8 (c ^^^ b % 256)

/-- Modbus CRC-16 of a byte sequence (initial value `0xFFFF`). -/
def crc16 (bs : List Nat) : Nat := bs.foldl crc16byte 0xFFFF

/-- Append the CRC-16 of a frame body, low byte first (RTU trailer). -/
def withCrc (frame : List Nat) : List Nat :=
  frame ++ [crc16 frame % 256, crc16 frame / 256 % 256]

/-- A 16-bit quantity as two big-endian bytes. -/
def beBytes16 (x : Nat) : List Nat := [x / 256 % 256, x % 256]

/-- `ModbusRequest::generate_get_holdings` (function code 3), RTU. -/
def generate_get_holdings (unit reg count : Nat) : List Nat :=
  withCrc ([unit, 3] ++ beBytes16 reg ++ beBytes16 count)

/-- `ModbusRequest::generate_get_coils` (function code 1), RTU. -/
def generate_get_coils (unit reg count : Nat) : List Nat :=
  withCrc ([unit, 1] ++ beBytes16 reg ++ beBytes16 count)

/-- `ModbusRequest::generate_set_holdings_bulk` (function code 16), RTU:
register count, byte count, then each value as two big-endian bytes. -/
def generate_set_holdings_bulk (unit reg : Nat) (values : List Nat) : List Nat :=
  withCrc (([unit, 16] ++ beBytes16 reg ++ beBytes16 values.length
    ++ [2 * values.length]) ++ (values.map beBytes16).flatten)

/-- `rmodbus::guess_response_frame_len` for RTU, from the 3-byte
prefix: an exception response (function code with the high bit set) is
5 bytes; a read response (codes 1–4) is `byte-count + 5`; a write echo
(codes 5, 6, 15, 16) is 8 bytes. -/
def guess_response_frame_len (head3 : List Nat) : Except MbErr Nat :=
  match head3 with
  | _ :: f :: c :: _ =>
    if 0x80 ≤ f then .ok 5
    else if f = 1 ∨ f = 2 ∨ f = 3 ∨ f = 4 then .ok (c + 5)
    else if f = 5 ∨ f = 6 ∨ f = 15 ∨ f = 16 then .ok 8
    else .error .frameBroken
  | _ => .error .frameBroken

/-- `ModbusRequest::parse_ok`: validate a response frame against the
request — minimal length, unit-id echo, function-code echo (a
function code with the high bit set carries the device's exception
code), and the trailing CRC over the body. -/
def parse_ok (unit func : Nat) (resp : List Nat) : Except MbErr Unit :=
  if resp.length < 5 then .error .frameBroken
  else if resp.getD 0 0 ≠ unit then .error .frameBroken
  else if resp.getD 1 0 = func + 0x80 then .error (.slaveError (resp.getD 2 0))
  else if resp.getD 1 0 ≠ func then .error .frameBroken
  else
    let body := resp.take (resp.length - 2)
    if crc16 body % 256 = resp.getD (resp.length - 2) 0 ∧
        crc16 body / 256 % 256 = resp.getD (resp.length - 1) 0 then .ok ()
    else .error .frameCrc

/-- Group a byte list into big-endian 16-bit words (dropping a dangling
odd byte, which the even-byte-count check below rules out). -/
def u16ListOfBytes : List Nat → List Nat
  | a :: b :: rest => (a * 256 + b) :: u16ListOfBytes rest
  | _ => []

/-- `ModbusRequest::parse_u16`: validate the frame as in `parse_ok`,
then extract the declared number of payload bytes as big-endian 16-bit
words into a vector of capacity `cap` (overflow is an `OOB` error). -/
def parse_u16 (unit func : Nat) (resp : List Nat) (cap : Nat) : Except MbErr (List Nat) :=
  match parse_ok unit func resp with
  | .error e => .error e
  | .ok _ =>
    let cnt := resp.getD 2 0
    if resp.length < cnt + 5 then .error .frameBroken
    else if cnt % 2 ≠ 0 then .error .frameBroken
    else
      let ws := u16ListOfBytes ((resp.drop 3).take cnt)
      if cap < ws.length then .error .oob
      else .ok ws

/-! ## Driver protocol functions

Straight-line embeddings of `Syl2381`'s private protocol helpers and
the public accessors the claims exercise.  The device handle's
`unit_id` field is passed explicitly as `unit`. -/

/-- `read_exact`: fill a buffer of `n` bytes by repeated single-byte
blocking reads; a read on an exhausted `rx` queue is a serial error. -/
def read_exact : Nat → Uart → Except DriverError (List Nat) × Uart
  | 0, s => (.ok [], s)
  | n + 1, s =>
    match s.rx with
    | [] => (.error .serialError, s)
    | b :: rest =>
      match read_exact n ⟨rest, s.tx⟩ with
      | (.ok bs, s') => (.ok (b :: bs), s')
      | (.error e, s') => (.error e, s')

/-- `write_all`: write every byte of the request to the transport. -/
def write_all (buf : List Nat) (s : Uart) : Uart := ⟨s.rx, s.tx ++ buf⟩

/-- `Syl2381::get_holding`: build a get-holdings request for 2
registers at `reg`, write it, read the 3-byte response prefix, infer
the total frame length, read the remainder, validate and extract two
16-bit words, and decode them to an f32.  (The Rust `data[0]`/`data[1]`
indexing panics if fewer than two words come back — `crash` below.) -/
def get_holding (unit reg : Nat) (s : Uart) : Except DriverError Nat × Uart :=
  let request := generate_get_holdings unit reg 2
  let s0 := write_all request s
  match read_exact 3 s0 with
  | (.error e, s1) => (.error e, s1)
  | (.ok head3, s1) =>
    match guess_response_frame_len head3 with
    | .error e => (.error (.modbusError e), s1)
    | .ok len =>
      match read_exact (len - 3) s1 with
      | (.error e, s2) => (.error e, s2)
      | (.ok rest, s2) =>
        let response := head3 ++ rest
        match parse_u16 unit 3 response 2 with
        | .error e => (.error (.modbusError e), s2)
        | .ok data =>
          match data with
          | d0 :: d1 :: _ => (.ok (values_to_f32 d0 d1), s2)
          | _ => (.error .crash, s2)

/-- `Syl2381::set_holding`: encode the value into two register words,
build a set-holdings-bulk request, write it, then read and validate
the echo response (same prefix / length-inference / remainder
sequence). -/
def set_holding (unit reg : Nat) (val : Nat) (s : Uart) : Except DriverError Unit × Uart :=
  let values := f32_to_values val
  let request := generate_set_holdings_bulk unit reg [values.1, values.2]
  let s0 := write_all request s
  match read_exact 3 s0 with
  | (.error e, s1) => (.error e, s1)
  | (.ok head3, s1) =>
    match guess_response_frame_len head3 with
    | .error e => (.error (.modbusError e), s1)
    | .ok len =>
      match read_exact (len - 3) s1 with
      | (.error e, s2) => (.error e, s2)
      | (.ok rest, s2) =>
        let response := head3 ++ rest
        match parse_ok unit 16 response with
        | .error e => (.error (.modbusError e), s2)
        | .ok _ => (.ok (), s2)

/-- `Syl2381::get_coils`: read `count ≤ 8` coils (the `assert!`
becomes `crash`).  After the frame validates, the declared byte-count
field (third response byte) is inspected: the source returns `Ok(0)`
when it is not 1, otherwise the single payload byte `response[3]`. -/
def get_coils (unit reg count : Nat) (s : Uart) : Except DriverError Nat × Uart :=
  if 8 < count then (.error .crash, s)
  else
    let request := generate_get_coils unit reg count
    let s0 := write_all request s
    match read_exact 3 s0 with
    | (.error e, s1) => (.error e, s1)
    | (.ok head3, s1) =>
      match guess_response_frame_len head3 with
      | .error e => (.error (.modbusError e), s1)
      | .ok len =>
        match read_exact (len - 3) s1 with
        | (.error e, s2) => (.error e, s2)
        | (.ok rest, s2) =>
          let response := head3 ++ rest
          match parse_ok unit 1 response with
          | .error e => (.error (.modbusError e), s2)
          | .ok _ =>
            let byte_count := response.getD 2 0
            if byte_count ≠ 1 then (.ok 0, s2)
            else
              match response.get? 3 with
              | some b => (.ok b, s2)
              | none => (.error .crash, s2)

/-- Bit pattern of the Rust f32 literal `-0.1` (the lower bound
actually written in `set_p`'s guard). -/
def litNeg0p1 : Nat := 0xBDCCCCCD

/-- Bit pattern of the Rust f32 literal `9999.9`. -/
def lit9999p9 : Nat := 0x461C3F9A

/-- `Syl2381::get_j1_status`: read 1 coil at `AL1_STA`, then test its
low bit. -/
def get_j1_status (unit : Nat) (s : Uart) : Except DriverError Bool × Uart :=
  match get_coils unit regs.AL1_STA 1 s with
  | (.ok val, s') => (.ok (val &&& 1 == 1), s')
  | (.error e, s') => (.error e, s')

/-- `Syl2381::get_status`: read 8 coils at `AT`; the byte is the
`Status` bit set. -/
def get_status (unit : Nat) (s : Uart) : Except DriverError Nat × Uart :=
  match get_coils unit regs.AT 8 s with
  | (.ok val, s') => (.ok val, s')
  | (.error e, s') => (.error e, s')

/-- `Syl2381::get_p`. -/
def get_p (unit : Nat) (s : Uart) : Except DriverError Nat × Uart :=
  get_holding unit regs.P s

/-- `Syl2381::set_p`: guard `val >= -0.1 && val <= 9999.9` (the source
literally writes `-0.1`), then write the holding register. -/
def set_p (unit : Nat) (val : Nat) (s : Uart) : Except DriverError Unit × Uart :=
  if ¬(f32ge val litNeg0p1 ∧ f32le val lit9999p9) then
    (.error (.unexpectedValue val), s)
  else set_holding unit regs.P val s

/-- `Syl2381::set_sv`: guard `val >= -1999 && val <= 9999` on the i16
argument, then write `val as f32`. -/
def set_sv (unit : Nat) (val : Int) (s : Uart) : Except DriverError Unit × Uart :=
  if ¬(-1999 ≤ val ∧ val ≤ 9999) then
    (.error (.unexpectedValue (intToF32 val)), s)
  else set_holding unit regs.SV (intToF32 val) s

/-- `Syl2381::get_souf`. -/
def get_souf (unit : Nat) (s : Uart) : Except DriverError Nat × Uart :=
  get_holding unit regs.SOUF s

/-- `Syl2381::set_souf`: guard `val >= 0.0 && val <= 1.0`. -/
def set_souf (unit : Nat) (val : Nat) (s : Uart) : Except DriverError Unit × Uart :=
  if ¬(f32ge val (natToF32 0) ∧ f32le val (natToF32 1)) then
    (.error (.unexpectedValue val), s)
  else set_holding unit regs.SOUF val s

/-- `Syl2381::get_control_cycle`: read the `OT` holding register and
cast `as u16`. -/
def get_control_cycle (unit : Nat) (s : Uart) : Except DriverError Nat × Uart :=
  match get_holding unit regs.OT s with
  | (.ok val, s') => (.ok (f32asU16 val), s')
  | (.error e, s') => (.error e, s')

/-- `Syl2381::set_control_cycle`: guard `val >= 1 && val <= 500` on the
u16 argument, then write `val as f32`. -/
def set_control_cycle (unit : Nat) (val : Nat) (s : Uart) : Except DriverError Unit × Uart :=
  if ¬(1 ≤ val ∧ val ≤ 500) then
    (.error (.unexpectedValue (natToF32 val)), s)
  else set_holding unit regs.OT (natToF32 val) s

/-! ## Fixed inputs used by individual claim checks -/

/-- A coils response frame declaring byte-count 2 (unit 1, function 1,
two payload bytes, valid CRC). -/
def c1CoilResponse : List Nat := withCrc [1, 1, 2, 0xAB, 0xCD]

/-- An 8-coil (status) response frame declaring byte-count 2 with all
payload bits set, valid CRC. -/
def c1StatusResponse : List Nat := withCrc [1, 1, 2, 0xFF, 0xFF]

/-- A well-formed set-holdings echo response from unit 1 (function 16). -/
def c2EchoResponse : List Nat := withCrc [1, 16, 0x10, 0, 0, 2]

/-- The spec's end-to-end scenario response: unit 5, function 3,
4 payload bytes encoding `23.5` (`0x41BC0000`), valid CRC. -/
def c6Response : List Nat := withCrc [5, 3, 4, 0x41, 0xBC, 0, 0]

/-! ## Helper lemmas -/

theorem filter_try_from_err_iff (v : Nat) :
    Filter.try_from v = .error () ↔ 3 ≤ f32asU8 v := by
  unfold Filter.try_from
  split <;> (rename_i heq; simp_all; try omega)

theorem controldirection_try_from_err_iff (v : Nat) :
    ControlDirection.try_from v = .error () ↔ 2 ≤ f32asU8 v := by
  unfold ControlDirection.try_from
  split <;> (rename_i heq; simp_all; try omega)

theorem displayunit_try_from_err_iff (v : Nat) :
    DisplayUnit.try_from v = .error () ↔ 2 ≤ f32asU8 v := by
  unfold DisplayUnit.try_from
  split <;> (rename_i heq; simp_all; try omega)

theorem baudrate_try_from_err_iff (v : Nat) :
    BaudRate.try_from v = .error () ↔ 4 ≤ f32asU8 v := by
  unfold BaudRate.try_from
  split <;> (rename_i heq; simp_all; try omega)

theorem inputtype_try_from_err_iff (v : Nat) :
    InputType.try_from v = .error () ↔ 11 ≤ f32asU8 v := by
  unfold InputType.try_from
  split <;> (rename_i heq; simp_all; try omega)

theorem outputtype_try_from_err_iff (v : Nat) :
    OutputType.try_from v = .error () ↔ 3 ≤ f32asU8 v := by
  unfold OutputType.try_from
  split <;> (rename_i heq; simp_all; try omega)

theorem outputmode_try_from_err_iff (v : Nat) :
    OutputMode.try_from v = .error () ↔ 5 ≤ f32asU8 v := by
  unfold OutputMode.try_from
  split <;> (rename_i heq; simp_all; try omega)

theorem f32asU8_of_negative (v : Nat) (h1 : ¬f32IsNan v) (h2 : f32sign v = 1) :
    f32asU8 v = 0 := by
  unfold f32asU8
  rw [if_neg h1, if_pos h2]

/-- Sanity checks pinning the integer encoder and the exact cast and
comparison semantics to independently computed IEEE-754 binary32 bit
patterns (`1.0 = 0x3F800000`, `7.0 = 0x40E00000`, `50.0 = 0x42480000`,
`10000.0 = 0x461C4000`, `-1999.0 = 0xC4F9E000`, `1.9 = 0x3FF33333`,
`-3.0 = 0xC0400000`, `0.05 = 0x3D4CCCCD`, `0.1 = 0x3DCCCCCD`,
`9999.9 = 0x461C3F9A`). -/
theorem f32_model_sanity :
    natToF32 1 = 0x3F800000 ∧
    natToF32 2 = 0x40000000 ∧
    natToF32 3 = 0x40400000 ∧
    natToF32 7 = 0x40E00000 ∧
    natToF32 10 = 0x41200000 ∧
    natToF32 50 = 0x42480000 ∧
    natToF32 10000 = 0x461C4000 ∧
    intToF32 (-1999) = 0xC4F9E000 ∧
    f32asU8 0x3FF33333 = 1 ∧
    f32asU8 0xC0400000 = 0 ∧
    f32asU8 0x40E00000 = 7 ∧
    f32le 0xBDCCCCCD 0x3D4CCCCD = true ∧
    f32le 0x3D4CCCCD 0x461C3F9A = true ∧
    f32le 0x3DCCCCCD 0x3D4CCCCD = false ∧
    f32scaled 0x461C4000 = 10000 * 2 ^ 149 := by
  refine ⟨by decide, by decide, by decide, by decide, by decide, by decide, by decide,
    by decide, by decide, by decide, by decide, by decide, by decide, by decide, by decide⟩

/-! ## Claim theorems -/

/-- C3: for every 32-bit IEEE-754 bit pattern `v` (including ±0,
subnormals, NaN with any payload, and ±Infinity), decoding the two
16-bit big-endian words produced by encoding `v` yields a bit-identical
float: `values_to_f32 (f32_to_values v) = v`, with no error path (both
functions are total). -/
theorem f32_words_roundtrip_c3 (v : Nat) (h : v < 2 ^ 32) :
    values_to_f32 (f32_to_values v).1 (f32_to_values v).2 = v := by
  unfold values_to_f32 f32_to_values
  simp only
  omega

/-- Witness for C3 at a NaN pattern with a nonzero payload
(`0x7FC00001`) and at `-0.0` (`0x80000000`). -/
theorem f32_words_roundtrip_c3_witness :
    0x7FC00001 < 2 ^ 32 ∧
      values_to_f32 (f32_to_values 0x7FC00001).1 (f32_to_values 0x7FC00001).2 = 0x7FC00001 ∧
      values_to_f32 (f32_to_values 0x80000000).1 (f32_to_values 0x80000000).2 = 0x80000000 :=
  ⟨by decide, f32_words_roundtrip_c3 0x7FC00001 (by decide),
    f32_words_roundtrip_c3 0x80000000 (by decide)⟩

/-- C7: the fixed known vectors of the numeric codec: the word pair
`(0x461C, 0x4000)` decodes to the bit pattern of `10000.0` — a finite
value whose exact magnitude scaled by `2^149` is `10000 * 2^149`, i.e.
exactly `10000.0` — and that pattern encodes back to exactly
`(0x461C, 0x4000)`.  (`natToF32 10000` is the binary32 pattern of the
integer 10000.) -/
theorem known_vector_c7 :
    values_to_f32 0x461C 0x4000 = natToF32 10000 ∧
    f32_to_values (natToF32 10000) = (0x461C, 0x4000) ∧
    f32IsFinite (natToF32 10000) ∧
    f32scaled (natToF32 10000) = 10000 * 2 ^ 149 := by
  refine ⟨by decide, by decide, by decide, by decide⟩

/-- C4: for every enumerated parameter type and every variant, encoding
the variant to its wire float ordinal and decoding that ordinal back
returns the variant (encoding is total, hence infallible); and whenever
the wire float's ordinal (its saturating‑truncating `as u8` image) lies
outside the type's defined set, decoding fails with the
unexpected-value error. -/
theorem enum_roundtrip_c4 :
    (∀ x : Filter, Filter.try_from (Filter.to_f32 x) = .ok x) ∧
    (∀ x : ControlDirection, ControlDirection.try_from (ControlDirection.to_f32 x) = .ok x) ∧
    (∀ x : DisplayUnit, DisplayUnit.try_from (DisplayUnit.to_f32 x) = .ok x) ∧
    (∀ x : BaudRate, BaudRate.try_from (BaudRate.to_f32 x) = .ok x) ∧
    (∀ x : InputType, InputType.try_from (InputType.to_f32 x) = .ok x) ∧
    (∀ x : OutputType, OutputType.try_from (OutputType.to_f32 x) = .ok x) ∧
    (∀ x : OutputMode, OutputMode.try_from (OutputMode.to_f32 x) = .ok x) ∧
    (∀ v : Nat, 3 ≤ f32asU8 v → Filter.try_from v = .error ()) ∧
    (∀ v : Nat, 2 ≤ f32asU8 v → ControlDirection.try_from v = .error ()) ∧
    (∀ v : Nat, 2 ≤ f32asU8 v → DisplayUnit.try_from v = .error ()) ∧
    (∀ v : Nat, 4 ≤ f32asU8 v → BaudRate.try_from v = .error ()) ∧
    (∀ v : Nat, 11 ≤ f32asU8 v → InputType.try_from v = .error ()) ∧
    (∀ v : Nat, 3 ≤ f32asU8 v → OutputType.try_from v = .error ()) ∧
    (∀ v : Nat, 5 ≤ f32asU8 v → OutputMode.try_from v = .error ()) := by
  refine ⟨fun x => by cases x <;> decide, fun x => by cases x <;> decide,
    fun x => by cases x <;> decide, fun x => by cases x <;> decide,
    fun x => by cases x <;> decide, fun x => by cases x <;> decide,
    fun x => by cases x <;> decide,
    fun v h => (filter_try_from_err_iff v).mpr h,
    fun v h => (controldirection_try_from_err_iff v).mpr h,
    fun v h => (displayunit_try_from_err_iff v).mpr h,
    fun v h => (baudrate_try_from_err_iff v).mpr h,
    fun v h => (inputtype_try_from_err_iff v).mpr h,
    fun v h => (outputtype_try_from_err_iff v).mpr h,
    fun v h => (outputmode_try_from_err_iff v).mpr h⟩

/-- Witness for C4: the filter round-trips at `Weak`, and the register
value `7.0` (ordinal 7, while only 0–2 are defined for filter strength)
fails to decode. -/
theorem enum_roundtrip_c4_witness :
    Filter.try_from (Filter.to_f32 Filter.Weak) = .ok Filter.Weak ∧
    3 ≤ f32asU8 (natToF32 7) ∧
    Filter.try_from (natToF32 7) = .error () :=
  ⟨enum_roundtrip_c4.1 Filter.Weak, by decide,
    enum_roundtrip_c4.2.2.2.2.2.2.2.1 (natToF32 7) (by decide)⟩

/-- C10 (implicit behavior of the `as u8` decoders): every enumerated
decoder converts the wire float with a saturating, truncating cast
before matching, so every negative non-NaN input decodes successfully
to the ordinal-0 variant (e.g. `-3.0`, pattern `0xC0400000`, decodes to
`Filter::Disabled`), fractional inputs truncate toward zero (`1.9`,
pattern `0x3FF33333`, decodes to `Filter::Weak`), and decoding fails
exactly when the saturated truncation lands on an undefined ordinal. -/
theorem saturating_decode_c10 :
    (∀ v : Nat, ¬f32IsNan v → f32sign v = 1 →
      f32asU8 v = 0 ∧
      Filter.try_from v = .ok Filter.Disabled ∧
      BaudRate.try_from v = .ok BaudRate.Baud1200 ∧
      InputType.try_from v = .ok InputType.T) ∧
    Filter.try_from 0xC0400000 = .ok Filter.Disabled ∧
    Filter.try_from 0x3FF33333 = .ok Filter.Weak ∧
    (∀ v : Nat, Filter.try_from v = .error () ↔ 3 ≤ f32asU8 v) ∧
    (∀ v : Nat, BaudRate.try_from v = .error () ↔ 4 ≤ f32asU8 v) ∧
    (∀ v : Nat, InputType.try_from v = .error () ↔ 11 ≤ f32asU8 v) := by
  refine ⟨fun v h1 h2 => ?_, by decide, by decide,
    filter_try_from_err_iff, baudrate_try_from_err_iff, inputtype_try_from_err_iff⟩
  have h0 := f32asU8_of_negative v h1 h2
  exact ⟨h0, by simp [Filter.try_from, h0], by simp [BaudRate.try_from, h0],
    by simp [InputType.try_from, h0]⟩

/-- Witness for C10 at `-1.0` (pattern `0xBF800000`): a negative input
on which all three decoders return the ordinal-0 variant. -/
theorem saturating_decode_c10_witness :
    f32asU8 0xBF800000 = 0 ∧
    Filter.try_from 0xBF800000 = .ok Filter.Disabled ∧
    BaudRate.try_from 0xBF800000 = .ok BaudRate.Baud1200 ∧
    InputType.try_from 0xBF800000 = .ok InputType.T :=
  saturating_decode_c10.1 0xBF800000 (by decide) (by decide)

/-- C8: each of the six `Status` accessors depends on exactly one
fixed, distinct bit of the status byte — alarm1 on bit 5, anomaly on
bit 4, setting_mode on bit 3, cooling_mode on bit 2, manual_mode on
bit 1, autotune_mode on bit 0 — and flipping any one of those six bits
changes exactly the corresponding accessor's result and no other. -/
theorem status_bits_c8 : ∀ b < 256, ∀ i < 6,
    (Status.alarm1 b = b.testBit 5) ∧
    (Status.anomaly b = b.testBit 4) ∧
    (Status.setting_mode b = b.testBit 3) ∧
    (Status.cooling_mode b = b.testBit 2) ∧
    (Status.manual_mode b = b.testBit 1) ∧
    (Status.autotune_mode b = b.testBit 0) ∧
    (Status.alarm1 (b ^^^ 1 <<< i) = (if i = 5 then !Status.alarm1 b else Status.alarm1 b)) ∧
    (Status.anomaly (b ^^^ 1 <<< i) = (if i = 4 then !Status.anomaly b else Status.anomaly b)) ∧
    (Status.setting_mode (b ^^^ 1 <<< i)
      = (if i = 3 then !Status.setting_mode b else Status.setting_mode b)) ∧
    (Status.cooling_mode (b ^^^ 1 <<< i)
      = (if i = 2 then !Status.cooling_mode b else Status.cooling_mode b)) ∧
    (Status.manual_mode (b ^^^ 1 <<< i)
      = (if i = 1 then !Status.manual_mode b else Status.manual_mode b)) ∧
    (Status.autotune_mode (b ^^^ 1 <<< i)
      = (if i = 0 then !Status.autotune_mode b else Status.autotune_mode b)) := by
  decide

/-- Witness for C8 at byte `0b100000` and bit 5: only `alarm1` is set,
and flipping bit 0 toggles only `autotune_mode`. -/
theorem status_bits_c8_witness :
    (Status.alarm1 32 = Nat.testBit 32 5) ∧
    (Status.anomaly 32 = Nat.testBit 32 4) ∧
    (Status.setting_mode 32 = Nat.testBit 32 3) ∧
    (Status.cooling_mode 32 = Nat.testBit 32 2) ∧
    (Status.manual_mode 32 = Nat.testBit 32 1) ∧
    (Status.autotune_mode 32 = Nat.testBit 32 0) ∧
    (Status.alarm1 (32 ^^^ 1 <<< 0) = (if (0 : Nat) = 5 then !Status.alarm1 32 else Status.alarm1 32)) ∧
    (Status.anomaly (32 ^^^ 1 <<< 0) = (if (0 : Nat) = 4 then !Status.anomaly 32 else Status.anomaly 32)) ∧
    (Status.setting_mode (32 ^^^ 1 <<< 0)
      = (if (0 : Nat) = 3 then !Status.setting_mode 32 else Status.setting_mode 32)) ∧
    (Status.cooling_mode (32 ^^^ 1 <<< 0)
      = (if (0 : Nat) = 2 then !Status.cooling_mode 32 else Status.cooling_mode 32)) ∧
    (Status.manual_mode (32 ^^^ 1 <<< 0)
      = (if (0 : Nat) = 1 then !Status.manual_mode 32 else Status.manual_mode 32)) ∧
    (Status.autotune_mode (32 ^^^ 1 <<< 0)
      = (if (0 : Nat) = 0 then !Status.autotune_mode 32 else Status.autotune_mode 32)) :=
  status_bits_c8 32 (by decide) 0 (by decide)

/-- C5: a bounded setter called with an argument outside its declared
inclusive range returns the unexpected-value error with the transport
state completely untouched — no byte is written or read and no request
frame is built into `tx`.  Shown for `set_sv` (range `[-1999, 9999]`)
and `set_control_cycle` (range `[1, 500]`). -/
theorem setter_range_validation_c5 :
    (∀ (unit : Nat) (val : Int) (s : Uart), val < -1999 ∨ 9999 < val →
      set_sv unit val s = (.error (.unexpectedValue (intToF32 val)), s)) ∧
    (∀ (unit val : Nat) (s : Uart), val = 0 ∨ 500 < val →
      set_control_cycle unit val s = (.error (.unexpectedValue (natToF32 val)), s)) := by
  constructor
  · intro unit val s h
    unfold set_sv
    rw [if_pos (by omega)]
  · intro unit val s h
    unfold set_control_cycle
    rw [if_pos (by omega)]

/-- Witness for C5: `set_sv` at 10000 and `set_control_cycle` at 501,
each on an empty transport, error out leaving the transport empty. -/
theorem setter_range_validation_c5_witness :
    set_sv 1 10000 ⟨[], []⟩ = (.error (.unexpectedValue (intToF32 10000)), ⟨[], []⟩) ∧
    set_control_cycle 1 501 ⟨[], []⟩
      = (.error (.unexpectedValue (natToF32 501)), ⟨[], []⟩) :=
  ⟨setter_range_validation_c5.1 1 10000 ⟨[], []⟩ (Or.inr (by decide)),
    setter_range_validation_c5.2 1 501 ⟨[], []⟩ (Or.inr (by decide))⟩

/-- C2 evaluation: `set_p`'s guard is `val >= -0.1 && val <= 9999.9`
(the source writes `-0.1`, not the documented `0.1`), so the argument
`0.05` (pattern `0x3D4CCCCD`) passes validation: the call succeeds and
writes a full set-holdings request frame for register `P` to the
transport, contradicting the claim that it must fail with no
transport write.  (`50.0`, pattern `0x42480000`, succeeds as the claim
also states.) -/
theorem set_p_accepts_0p05_c2 :
    f32ge 0x3D4CCCCD litNeg0p1 = true ∧
    f32le 0x3D4CCCCD lit9999p9 = true ∧
    (set_p 1 0x3D4CCCCD ⟨c2EchoResponse, []⟩).1 = .ok () ∧
    (set_p 1 0x3D4CCCCD ⟨c2EchoResponse, []⟩).2.tx
      = generate_set_holdings_bulk 1 regs.P [0x3D4C, 0xCCCD] ∧
    (set_p 1 0x42480000 ⟨c2EchoResponse, []⟩).1 = .ok () := by
  decide

/-- C1 evaluation: a get-coils response frame whose declared byte-count
field is 2 passes frame validation (`parse_ok` checks only the CRC and
the unit/function echo), and `get_coils` then returns `Ok(0)` — the
payload is silently coerced to the default 0 instead of failing with a
protocol error: `get_j1_status` reports `false` and `get_status`
reports an all-clear status byte even though the (malformed) payload
bits were all set. -/
theorem coil_bytecount_coerced_c1 :
    parse_ok 1 1 c1CoilResponse = .ok () ∧
    c1CoilResponse.getD 2 0 = 2 ∧
    (get_coils 1 regs.AL1_STA 1 ⟨c1CoilResponse, []⟩).1 = .ok 0 ∧
    (get_j1_status 1 ⟨c1CoilResponse, []⟩).1 = .ok false ∧
    (get_status 1 ⟨c1StatusResponse, []⟩).1 = .ok 0 := by
  decide

theorem read_exact_tx : ∀ (n : Nat) (s : Uart), (read_exact n s).2.tx = s.tx := by
  intro n
  induction n with
  | zero => intro s; rfl
  | succ n ih =>
    intro s
    rcases hrx : s.rx with _ | ⟨b, rest⟩
    · simp [read_exact, hrx]
    · have h' := ih ⟨rest, s.tx⟩
      rcases hre : read_exact n ⟨rest, s.tx⟩ with ⟨r, s'⟩
      rw [hre] at h'
      rcases r with e | bs
      all_goals simp [read_exact, hrx, hre]
      all_goals exact h'

theorem read_exact_ok : ∀ (n : Nat) (s : Uart) (bs : List Nat) (s' : Uart),
    read_exact n s = (.ok bs, s') →
    bs = s.rx.take n ∧ s'.rx = s.rx.drop n ∧ s'.tx = s.tx ∧ n ≤ s.rx.length := by
  intro n
  induction n with
  | zero =>
    intro s bs s' h
    simp only [read_exact, Prod.mk.injEq, Except.ok.injEq] at h
    obtain ⟨h1, h2⟩ := h
    subst h1; subst h2
    simp
  | succ n ih =>
    intro s bs s' h
    rcases hrx : s.rx with _ | ⟨b, rest⟩
    · simp only [read_exact, hrx] at h
      simp at h
    · simp only [read_exact, hrx] at h
      rcases hre : read_exact n ⟨rest, s.tx⟩ with ⟨r, s2⟩
      rw [hre] at h
      rcases r with e | bs2
      · simp at h
      · simp only [Prod.mk.injEq, Except.ok.injEq] at h
        obtain ⟨hbs, hs2⟩ := h
        obtain ⟨ih1, ih2, ih3, ih4⟩ := ih ⟨rest, s.tx⟩ bs2 s2 hre
        subst hbs; subst hs2
        refine ⟨?_, ?_, ih3, ?_⟩
        · rw [List.take_succ_cons, ih1]
        · rw [List.drop_succ_cons, ih2]
        · simpa using ih4

theorem guess_ge5 (l : List Nat) (len : Nat)
    (h : guess_response_frame_len l = .ok len) : 5 ≤ len := by
  rcases l with _ | ⟨u, _ | ⟨f, _ | ⟨c, rest⟩⟩⟩ <;>
    simp only [guess_response_frame_len] at h
  · exact absurd h (by simp)
  · exact absurd h (by simp)
  · exact absurd h (by simp)
  · split_ifs at h <;>
      first
        | (simp only [Except.ok.injEq] at h; omega)
        | simp at h

theorem parse_u16_len (unit func : Nat) (resp : List Nat) (cap : Nat) (ws : List Nat)
    (h : parse_u16 unit func resp cap = .ok ws) : ws.length ≤ cap := by
  unfold parse_u16 at h
  rcases hpo : parse_ok unit func resp with e | u0
  · rw [hpo] at h; simp at h
  · rw [hpo] at h
    simp only at h
    split_ifs at h <;>
      first
        | (simp only [Except.ok.injEq] at h; subst h; omega)
        | simp at h

theorem get_holding_tx (unit reg : Nat) (s : Uart) :
    (get_holding unit reg s).2.tx = s.tx ++ generate_get_holdings unit reg 2 := by
  simp only [get_holding]
  rcases h3 : read_exact 3 (write_all (generate_get_holdings unit reg 2) s) with ⟨r1, s1⟩
  have htx1 : s1.tx = s.tx ++ generate_get_holdings unit reg 2 := by
    have h := read_exact_tx 3 (write_all (generate_get_holdings unit reg 2) s)
    rw [h3] at h
    exact h
  rcases r1 with e | head3
  · simpa using htx1
  · dsimp only
    rcases hg : guess_response_frame_len head3 with e | len
    · simpa using htx1
    · dsimp only
      rcases h4 : read_exact (len - 3) s1 with ⟨r2, s2⟩
      have htx2 : s2.tx = s1.tx := by
        have h := read_exact_tx (len - 3) s1
        rw [h4] at h
        exact h
      rcases r2 with e | rest
      · simpa [htx2] using htx1
      · dsimp only
        rcases hp : parse_u16 unit 3 (head3 ++ rest) 2 with e | data
        · simpa [htx2] using htx1
        · dsimp only
          rcases data with _ | ⟨d0, _ | ⟨d1, rest2⟩⟩ <;> simpa [htx2] using htx1

theorem set_holding_tx (unit reg val : Nat) (s : Uart) :
    (set_holding unit reg val s).2.tx
      = s.tx ++ generate_set_holdings_bulk unit reg
          [(f32_to_values val).1, (f32_to_values val).2] := by
  simp only [set_holding]
  rcases h3 : read_exact 3 (write_all (generate_set_holdings_bulk unit reg
      [(f32_to_values val).1, (f32_to_values val).2]) s) with ⟨r1, s1⟩
  have htx1 : s1.tx = s.tx ++ generate_set_holdings_bulk unit reg
      [(f32_to_values val).1, (f32_to_values val).2] := by
    have h := read_exact_tx 3 (write_all (generate_set_holdings_bulk unit reg
      [(f32_to_values val).1, (f32_to_values val).2]) s)
    rw [h3] at h
    exact h
  rcases r1 with e | head3
  · simpa using htx1
  · dsimp only
    rcases hg : guess_response_frame_len head3 with e | len
    · simpa using htx1
    · dsimp only
      rcases h4 : read_exact (len - 3) s1 with ⟨r2, s2⟩
      have htx2 : s2.tx = s1.tx := by
        have h := read_exact_tx (len - 3) s1
        rw [h4] at h
        exact h
      rcases r2 with e | rest
      · simpa [htx2] using htx1
      · dsimp only
        rcases hp : parse_ok unit 16 (head3 ++ rest) with e | u0 <;>
          simpa [htx2] using htx1

/-- C9: each named parameter is bound to one fixed register address —
the damping-constant (SouF) accessors both address `0x1008`, the
control-cycle (OT) accessors both address `0x100A`, and the
proportional-gain (P) accessors both address `0x1000`; in particular
the SouF setter and the OT setter target two distinct registers, their
request frames differing in the address bytes. -/
theorem register_binding_c9 :
    regs.SOUF = 0x1008 ∧ regs.OT = 0x100A ∧ regs.SOUF ≠ regs.OT ∧
    (∀ (unit : Nat) (s : Uart),
      (get_souf unit s).2.tx = s.tx ++ generate_get_holdings unit regs.SOUF 2) ∧
    (∀ (unit val : Nat) (s : Uart), f32ge val (natToF32 0) → f32le val (natToF32 1) →
      (set_souf unit val s).2.tx
        = s.tx ++ generate_set_holdings_bulk unit regs.SOUF
            [(f32_to_values val).1, (f32_to_values val).2]) ∧
    (∀ (unit : Nat) (s : Uart),
      (get_control_cycle unit s).2.tx = s.tx ++ generate_get_holdings unit regs.OT 2) ∧
    (∀ (unit val : Nat) (s : Uart), 1 ≤ val → val ≤ 500 →
      (set_control_cycle unit val s).2.tx
        = s.tx ++ generate_set_holdings_bulk unit regs.OT
            [(f32_to_values (natToF32 val)).1, (f32_to_values (natToF32 val)).2]) ∧
    (∀ (unit : Nat) (s : Uart),
      (get_p unit s).2.tx = s.tx ++ generate_get_holdings unit regs.P 2) ∧
    (∀ (unit val : Nat) (s : Uart), f32ge val litNeg0p1 → f32le val lit9999p9 →
      (set_p unit val s).2.tx
        = s.tx ++ generate_set_holdings_bulk unit regs.P
            [(f32_to_values val).1, (f32_to_values val).2]) ∧
    (∀ (unit : Nat) (l : List Nat),
      (generate_set_holdings_bulk unit regs.SOUF l).take 4 = [unit, 16, 0x10, 0x08] ∧
      (generate_set_holdings_bulk unit regs.OT l).take 4 = [unit, 16, 0x10, 0x0A]) := by
  refine ⟨rfl, rfl, by decide, ?_, ?_, ?_, ?_, ?_, ?_, ?_⟩
  · intro unit s
    exact get_holding_tx unit regs.SOUF s
  · intro unit val s h1 h2
    unfold set_souf
    rw [if_neg (by simp [h1, h2])]
    exact set_holding_tx unit regs.SOUF val s
  · intro unit s
    simp only [get_control_cycle]
    rcases h : get_holding unit regs.OT s with ⟨r, s'⟩
    have htx := get_holding_tx unit regs.OT s
    rw [h] at htx
    rcases r with e | v <;> simpa using htx
  · intro unit val s h1 h2
    unfold set_control_cycle
    rw [if_neg (by omega)]
    exact set_holding_tx unit regs.OT (natToF32 val) s
  · intro unit s
    exact get_holding_tx unit regs.P s
  · intro unit val s h1 h2
    unfold set_p
    rw [if_neg (by simp [h1, h2])]
    exact set_holding_tx unit regs.P val s
  · intro unit l
    constructor <;>
      simp [generate_set_holdings_bulk, withCrc, beBytes16, regs.SOUF, regs.OT, List.take]

/-- Witness for C9: on an empty transport, `set_souf 0.0`,
`set_control_cycle 2`, and `set_p 50.0` each write a request frame
addressing their own register. -/
theorem register_binding_c9_witness :
    (set_souf 1 (natToF32 0) ⟨[], []⟩).2.tx
      = [] ++ generate_set_holdings_bulk 1 regs.SOUF
          [(f32_to_values (natToF32 0)).1, (f32_to_values (natToF32 0)).2] ∧
    (set_control_cycle 1 2 ⟨[], []⟩).2.tx
      = [] ++ generate_set_holdings_bulk 1 regs.OT
          [(f32_to_values (natToF32 2)).1, (f32_to_values (natToF32 2)).2] ∧
    (set_p 1 0x42480000 ⟨[], []⟩).2.tx
      = [] ++ generate_set_holdings_bulk 1 regs.P
          [(f32_to_values 0x42480000).1, (f32_to_values 0x42480000).2] :=
  ⟨register_binding_c9.2.2.2.2.1 1 (natToF32 0) ⟨[], []⟩ (by decide) (by decide),
    register_binding_c9.2.2.2.2.2.2.1 1 2 ⟨[], []⟩ (by decide) (by decide),
    register_binding_c9.2.2.2.2.2.2.2.2.1 1 0x42480000 ⟨[], []⟩ (by decide) (by decide)⟩

/-- C6: every successful get-holding transaction follows exactly the
specified sequence — the driver writes the full read-holding-registers
request for 2 consecutive registers at the parameter's address for the
device's unit id, consumes exactly 3 response-prefix bytes plus
`length − 3` remainder bytes where `length` is inferred from that
3-byte prefix, validates the completed frame and extracts two 16-bit
words from it, and returns their f32 decoding. -/
theorem get_holding_sequence_c6 (unit reg : Nat) (s : Uart) (v : Nat) (s' : Uart)
    (h : get_holding unit reg s = (.ok v, s')) :
    s'.tx = s.tx ++ generate_get_holdings unit reg 2 ∧
    ∃ len, guess_response_frame_len (s.rx.take 3) = .ok len ∧
      3 ≤ len ∧ len ≤ s.rx.length ∧ s'.rx = s.rx.drop len ∧
      ∃ d0 d1, parse_u16 unit 3 (s.rx.take len) 2 = .ok [d0, d1] ∧
        v = values_to_f32 d0 d1 := by
  simp only [get_holding] at h
  rcases h3 : read_exact 3 (write_all (generate_get_holdings unit reg 2) s) with ⟨r1, s1⟩
  rw [h3] at h
  rcases r1 with e | head3
  · simp at h
  · dsimp only at h
    rcases hg : guess_response_frame_len head3 with e | len
    · rw [hg] at h
      simp at h
    · rw [hg] at h
      dsimp only at h
      rcases h4 : read_exact (len - 3) s1 with ⟨r2, s2⟩
      rw [h4] at h
      rcases r2 with e | rest
      · simp at h
      · dsimp only at h
        rcases hp : parse_u16 unit 3 (head3 ++ rest) 2 with e | data
        · rw [hp] at h
          simp at h
        · rw [hp] at h
          dsimp only at h
          rcases data with _ | ⟨d0, _ | ⟨d1, rest2⟩⟩
        -- fewer than two extracted words would crash, not return ok
          · simp at h
          · simp at h
          · simp only [Prod.mk.injEq, Except.ok.injEq] at h
            obtain ⟨hv, hs⟩ := h
            subst hs
            obtain ⟨hb3, hrx1, htx1, hlen1⟩ := read_exact_ok 3 _ head3 s1 h3
            obtain ⟨hrest, hrx2, htx2, hlen2⟩ := read_exact_ok (len - 3) s1 rest s2 h4
            simp only [write_all] at hb3 hrx1 htx1 hlen1
            have hlen5 : 5 ≤ len := guess_ge5 head3 len hg
            have hrest2 : rest2 = [] := by
              have hl := parse_u16_len unit 3 (head3 ++ rest) 2 _ hp
              simp at hl
              simpa using hl
            subst hrest2
            subst hb3
            subst hrest
            rw [hrx1] at hrx2 hlen2 hp
            have htake : s.rx.take len = s.rx.take 3 ++ (s.rx.drop 3).take (len - 3) := by
              rw [← List.take_add]
              congr 1
              omega
            refine ⟨htx2.trans htx1, len, hg, by omega, ?_, ?_, d0, d1, ?_, hv.symm⟩
            · simp only [List.length_drop] at hlen2
              omega
            · rw [hrx2, List.drop_drop]
              congr 1
              omega
            · rw [htake]
              exact hp

/-- Witness for C6: the spec's end-to-end scenario — reading 2 holdings
at address `0x0164` from unit 5 against a canned valid response frame
encoding `23.5` (pattern `0x41BC0000`) — satisfies the sequence
characterization. -/
theorem get_holding_sequence_c6_witness :
    generate_get_holdings 5 0x0164 2 = [] ++ generate_get_holdings 5 0x0164 2 ∧
    ∃ len, guess_response_frame_len (c6Response.take 3) = .ok len ∧
      3 ≤ len ∧ len ≤ c6Response.length ∧ ([] : List Nat) = c6Response.drop len ∧
      ∃ d0 d1, parse_u16 5 3 (c6Response.take len) 2 = .ok [d0, d1] ∧
        0x41BC0000 = values_to_f32 d0 d1 :=
  get_holding_sequence_c6 5 0x0164 ⟨c6Response, []⟩ 0x41BC0000
    ⟨[], generate_get_holdings 5 0x0164 2⟩ (by decide)
